import Mathlib

/-!
Verification development for the examination-system backend's
authentication/authorization core and dashboard endpoint.

The Python modules `app/auth.py`, `app/api/auth_api.py`,
`app/api/dashboard.py` and `app/config/settings.py` are shallowly
embedded below.  External collaborators (the `jose` JWT library, the
`bcrypt` library, and the relational Credential Store) are modelled
symbolically: a signed token records the payload, the absolute expiry
timestamp, the signing key and the algorithm, and a signature verifies
exactly when the verifier's key and allowed-algorithm list match
(perfect-crypto assumption); a bcrypt digest records the salt and the
hashed password, and `checkpw` succeeds exactly when recomputing the
hash with the embedded salt reproduces the digest; the store is a
function from query argument to either an error (the driver raised) or
an optional row.  Time is measured in whole seconds (`Nat`).
-/

/-- Hardcoded module constant `SECRET_KEY` of `app/auth.py`. -/
def SECRET_KEY : String := "your-secret-key-change-this-in-production"

/-- Hardcoded module constant `ALGORITHM` of `app/auth.py`. -/
def ALGORITHM : String := "HS256"

/-- Hardcoded module constant `ACCESS_TOKEN_EXPIRE_MINUTES` of `app/auth.py` (24 hours). -/
def ACCESS_TOKEN_EXPIRE_MINUTES : Nat := 60 * 24

/-- A JSON scalar as it may appear in a JWT claim value: the call sites
put either an integer (`"sub": user.user_id`) or a string there. -/
inductive JsonVal where
  | jint (n : Int)
  | jstr (s : String)
deriving DecidableEq, Repr

/-- The claims dictionary handed to `jwt.encode` by this codebase:
`sub`, `email` and `user_type` keys (each possibly absent). -/
structure TokenPayload where
  sub : Option JsonVal
  email : Option String
  user_type : Option String
deriving DecidableEq, Repr

/-- A token string, symbolically: either a well-formed signed token
(payload, absolute expiry in seconds, signing key, algorithm) or an
arbitrary string that does not parse as a JWT. -/
inductive JoseToken where
  | signed (payload : TokenPayload) (exp : Nat) (key : String) (alg : String)
  | garbage (raw : String)
deriving DecidableEq, Repr

/-- Rejection reasons of the JWT verifier (`jose.JWTError` subclasses). -/
inductive JoseError where
  | expired
  | badSignature
  | malformedToken
deriving DecidableEq, Repr

/-- Symbolic model of `jose.jwt.encode(claims, key, algorithm)`:
record the payload, its `exp` claim, the key and the algorithm. -/
def jose_encode (payload : TokenPayload) (exp : Nat) (key : String) (alg : String) : JoseToken :=
  .signed payload exp key alg

/-- Symbolic model of `jose.jwt.decode(token, key, algorithms)`: a
non-JWT string is malformed; a signed token verifies only if it was
signed with the verifier's key using an allowed algorithm, otherwise
`bad-signature`; a verified token is `expired` once the current time
has reached its expiry (RFC 7519: the current time must be strictly
before `exp`); otherwise the embedded claims are returned. -/
def jose_decode (t : JoseToken) (key : String) (algs : List String) (now : Nat) :
    Except JoseError TokenPayload :=
  match t with
  | .garbage _ => .error .malformedToken
  | .signed payload exp k alg =>
    if k = key ∧ alg ∈ algs then
      if exp ≤ now then .error .expired else .ok payload
    else .error .badSignature

/-- Python's `int(x)` applied to a JSON scalar: an `int` passes
through, a string is parsed, anything unparsable raises `ValueError`. -/
def pyInt : JsonVal → Except String Int
  | .jint n => .ok n
  | .jstr s =>
    match s.toInt? with
    | some n => .ok n
    | none => .error "invalid literal for int"

/-- `TokenData` of `app/auth.py`. -/
structure TokenData where
  user_id : Option Int
  email : Option String
  user_type : Option String
deriving DecidableEq, Repr

/-- `create_access_token` of `app/auth.py`: copy the claims; the body
tests `if expires_delta:` by Python truthiness, so both an absent
delta and a zero `timedelta` (falsy) fall back to the module default
of `ACCESS_TOKEN_EXPIRE_MINUTES` minutes; set `exp` to now plus the
chosen delta and sign with the module constants `SECRET_KEY` /
`ALGORITHM`. -/
def create_access_token (data : TokenPayload) (expires_delta : Option Nat) (now : Nat) :
    JoseToken :=
  let expire : Nat :=
    match expires_delta with
    | some d =>
      if d = 0 then now + ACCESS_TOKEN_EXPIRE_MINUTES * 60 else now + d
    | none => now + ACCESS_TOKEN_EXPIRE_MINUTES * 60
  jose_encode data expire SECRET_KEY ALGORITHM

/-- `decode_access_token` of `app/auth.py`: decode with `SECRET_KEY`
and `[ALGORITHM]`; on any `JWTError` return `None`; if the `sub` claim
is absent return `None`; convert `sub` with `int(...)`, returning
`None` on `ValueError`; otherwise return the `TokenData`. -/
def decode_access_token (token : JoseToken) (now : Nat) : Option TokenData :=
  match jose_decode token SECRET_KEY [ALGORITHM] now with
  | .error _ => none
  | .ok payload =>
    match payload.sub with
    | none => none
    | some v =>
      match pyInt v with
      | .error _ => none
      | .ok user_id => some ⟨some user_id, payload.email, payload.user_type⟩

/-- A bcrypt digest, symbolically: the salt embedded in the hash
string plus the password it hashes (perfect one-way function: two
digests with the same salt agree exactly when the passwords agree). -/
structure BcryptDigest where
  salt : Nat
  pw : String
deriving DecidableEq, Repr

/-- A stored hash string: either a well-formed bcrypt hash or any
other string (not bcrypt-shaped — including the empty string the
session path stores after clearing). -/
inductive HashString where
  | bhash (d : BcryptDigest)
  | raw (s : String)
deriving DecidableEq, Repr

/-- The cleared `password_hash` value `""` used by `get_current_user`. -/
def emptyHash : HashString := .raw ""

/-- Symbolic `bcrypt.hashpw(password, salt)`. -/
def bcrypt_hashpw (password : String) (salt : Nat) : BcryptDigest :=
  ⟨salt, password⟩

/-- Symbolic `bcrypt.checkpw(password, stored)`: raises (`.error`) on
a malformed stored hash; otherwise recomputes the hash with the
embedded salt and compares. -/
def bcrypt_checkpw (password : String) (stored : HashString) : Except String Bool :=
  match stored with
  | .raw _ => .error "Invalid salt"
  | .bhash d => .ok (decide (bcrypt_hashpw password d.salt = d))

/-- `verify_password` of `app/auth.py`: call `bcrypt.checkpw` inside
`try/except`, returning `False` on any exception. -/
def verify_password (plain_password : String) (hashed_password : HashString) : Bool :=
  match bcrypt_checkpw plain_password hashed_password with
  | .ok b => b
  | .error _ => false

/-- `get_password_hash` of `app/auth.py`: hash with a fresh salt
(the salt drawn by `bcrypt.gensalt()` is passed explicitly here). -/
def get_password_hash (password : String) (salt : Nat) : HashString :=
  .bhash (bcrypt_hashpw password salt)

/-- The row returned by `EXEC sp_AuthenticateUser @Email = ...`, with
the column types the Python code assumes (`row[0]` may be `NULL`,
`row[6]` is coerced with `bool(...)`, `row[8]` may be `NULL`/empty).
Column order follows `get_user_from_db`: 0 User_ID, 1 email,
2 password hash, 3 user type, 4 student id, 5 instructor id,
6 active flag, 8 full name, 9 intake, 10 track, 11 branch,
12 track name, 13 branch name, 14 department id, 15 department name. -/
structure AuthRow where
  user_id : Option Int
  email : String
  password_hash : HashString
  user_type : String
  student_id : Option Int
  instructor_id : Option Int
  is_active : Bool
  full_name : Option String
  intake_id : Option Int
  track_id : Option Int
  branch_id : Option Int
  track_name : Option String
  branch_name : Option String
  department_id : Option Int
  department_name : Option String
deriving DecidableEq, Repr

/-- The row returned by `EXEC sp_GetUserByID @User_ID = ...` as read
by `get_current_user` (no password-hash column): 0 User_ID, 1 email,
2 user type, 3 student id, 4 instructor id, 5 active flag,
7 full name, 8 intake, 9 track, 10 branch, 11 track name,
12 branch name, 13 department id, 14 department name. -/
structure UserRow where
  user_id : Option Int
  email : String
  user_type : String
  student_id : Option Int
  instructor_id : Option Int
  is_active : Bool
  full_name : Option String
  intake_id : Option Int
  track_id : Option Int
  branch_id : Option Int
  track_name : Option String
  branch_name : Option String
  department_id : Option Int
  department_name : Option String
deriving DecidableEq, Repr

/-- The Credential Store collaborator: each lookup either raises
(`.error`, e.g. the database is unreachable) or returns an optional
row.  The fire-and-forget last-login write has no observable effect on
any response and is omitted. -/
structure Db where
  authByEmail : String → Except String (Option AuthRow)
  userById : Int → Except String (Option UserRow)

/-- `UserInDB` of `app/auth.py`. -/
structure UserInDB where
  user_id : Int
  email : String
  password_hash : HashString
  user_type : String
  full_name : String
  is_active : Bool
  student_id : Option Int
  instructor_id : Option Int
  intake_id : Option Int
  track_id : Option Int
  branch_id : Option Int
  track_name : Option String
  branch_name : Option String
  department_id : Option Int
  department_name : Option String
deriving DecidableEq, Repr

/-- Python's `x if x else dflt` on an optional string: `None` and the
empty string are falsy. -/
def pyStrOr (o : Option String) (dflt : String) : String :=
  match o with
  | some s => if s = "" then dflt else s
  | none => dflt

/-- `get_user_from_db` of `app/api/auth_api.py`: run the stored
procedure inside `try/except` (any exception is swallowed and `None`
returned); return `None` when there is no row or `row[0]` is `NULL`;
otherwise build the `UserInDB`, defaulting the full name to `"User"`. -/
def get_user_from_db (email : String) (db : Db) : Option UserInDB :=
  match db.authByEmail email with
  | .error _ => none
  | .ok none => none
  | .ok (some row) =>
    match row.user_id with
    | none => none
    | some uid =>
      some { user_id := uid, email := row.email,
             password_hash := row.password_hash, user_type := row.user_type,
             full_name := pyStrOr row.full_name "User", is_active := row.is_active,
             student_id := row.student_id, instructor_id := row.instructor_id,
             intake_id := row.intake_id, track_id := row.track_id,
             branch_id := row.branch_id, track_name := row.track_name,
             branch_name := row.branch_name, department_id := row.department_id,
             department_name := row.department_name }

/-- `authenticate_user` of `app/api/auth_api.py`. -/
def authenticate_user (email : String) (password : String) (db : Db) : Option UserInDB :=
  match get_user_from_db email db with
  | none => none
  | some user =>
    if ¬ verify_password password user.password_hash then none
    else if ¬ user.is_active then none
    else some user

/-- An HTTP error response (`HTTPException`): status code and detail. -/
structure HttpError where
  status : Nat
  detail : String
deriving DecidableEq, Repr

/-- The single `credentials_exception` of `get_current_user`. -/
def credentials_exception : HttpError :=
  ⟨401, "Could not validate credentials"⟩

/-- `get_current_user` of `app/api/auth_api.py`: decode the token
(401 on failure or missing subject); fetch the user by id (the broad
`except` turns a raised database error into the same 401); 401 when no
row or `row[0]` is `NULL`; build the user with `password_hash = ""`;
401 when the fresh record is inactive; otherwise return the user. -/
def get_current_user (token : JoseToken) (db : Db) (now : Nat) :
    Except HttpError UserInDB :=
  match decode_access_token token now with
  | none => .error credentials_exception
  | some token_data =>
    match token_data.user_id with
    | none => .error credentials_exception
    | some uid =>
      match db.userById uid with
      | .error _ => .error credentials_exception
      | .ok none => .error credentials_exception
      | .ok (some row) =>
        match row.user_id with
        | none => .error credentials_exception
        | some ruid =>
          let user : UserInDB :=
            { user_id := ruid, email := row.email, password_hash := .raw "",
              user_type := row.user_type,
              full_name := pyStrOr row.full_name "User", is_active := row.is_active,
              student_id := row.student_id, instructor_id := row.instructor_id,
              intake_id := row.intake_id, track_id := row.track_id,
              branch_id := row.branch_id, track_name := row.track_name,
              branch_name := row.branch_name, department_id := row.department_id,
              department_name := row.department_name }
          if ¬ user.is_active then .error credentials_exception
          else .ok user

/-- `UserResponse` of `app/api/auth_api.py`: the outward user object
(note: no password-hash field exists on this model). -/
structure UserResponse where
  user_id : Int
  email : String
  user_type : String
  full_name : String
  student_id : Option Int
  instructor_id : Option Int
  intake_id : Option Int
  track_id : Option Int
  branch_id : Option Int
  track_name : Option String
  branch_name : Option String
  department_id : Option Int
  department_name : Option String
deriving DecidableEq, Repr

/-- The JSON field names serialized from `UserResponse`, in
declaration order. -/
def UserResponse.fieldNames : List String :=
  ["user_id", "email", "user_type", "full_name", "student_id", "instructor_id",
   "intake_id", "track_id", "branch_id", "track_name", "branch_name",
   "department_id", "department_name"]

/-- The `UserResponse` built from a `UserInDB` by the handlers. -/
def userResponseOf (user : UserInDB) : UserResponse :=
  { user_id := user.user_id, email := user.email, user_type := user.user_type,
    full_name := user.full_name, student_id := user.student_id,
    instructor_id := user.instructor_id, intake_id := user.intake_id,
    track_id := user.track_id, branch_id := user.branch_id,
    track_name := user.track_name, branch_name := user.branch_name,
    department_id := user.department_id, department_name := user.department_name }

/-- `LoginRequest` of `app/api/auth_api.py`. -/
structure LoginRequest where
  email : String
  password : String
deriving DecidableEq, Repr

/-- `LoginResponse` of `app/api/auth_api.py`. -/
structure LoginResponse where
  access_token : JoseToken
  token_type : String
  user : UserResponse
deriving DecidableEq, Repr

/-- The `POST /login` handler of `app/api/auth_api.py`: authenticate;
on failure raise 401 "Incorrect email or password"; on success issue a
token for `{sub: user_id, email, user_type}` with the module TTL and
return it with the user object.  The best-effort last-login update has
no effect on the response and is omitted. -/
def login (login_data : LoginRequest) (db : Db) (now : Nat) :
    Except HttpError LoginResponse :=
  match authenticate_user login_data.email login_data.password db with
  | none => .error ⟨401, "Incorrect email or password"⟩
  | some user =>
    let access_token := create_access_token
      ⟨some (.jint user.user_id), some user.email, some user.user_type⟩
      (some (ACCESS_TOKEN_EXPIRE_MINUTES * 60)) now
    .ok { access_token := access_token, token_type := "bearer",
          user := userResponseOf user }

/-- The `GET /me` handler: map the resolved current user to the
outward `UserResponse`. -/
def me_handler (token : JoseToken) (db : Db) (now : Nat) :
    Except HttpError UserResponse :=
  match get_current_user token db now with
  | .error e => .error e
  | .ok user => .ok (userResponseOf user)

/-- `Settings` of `app/config/settings.py` (environment-loaded process
configuration). -/
structure Settings where
  db_server : String
  db_port : Nat
  db_name : String
  db_user : String
  db_password : String
  db_encrypt : Bool
  db_trust_server_certificate : Bool
  app_name : String
  debug : Bool
  api_prefix : String
  jwt_secret : String
  jwt_algorithm : String
  jwt_expires_minutes : Nat
  cors_origins : List String
  host : String
  port : Nat
deriving DecidableEq, Repr

/-- The default `Settings` values of `app/config/settings.py`. -/
def defaultSettings : Settings :=
  { db_server := "localhost", db_port := 1433,
    db_name := "ITI_Examination_System", db_user := "sa", db_password := "",
    db_encrypt := true, db_trust_server_certificate := false,
    app_name := "ITI Examination System", debug := false, api_prefix := "/api",
    jwt_secret := "your-secret-key-change-in-production",
    jwt_algorithm := "HS256", jwt_expires_minutes := 1440,
    cors_origins := ["http://localhost:5173", "http://localhost:3000"],
    host := "0.0.0.0", port := 8000 }

/-- `create_access_token` as run inside a process whose configuration
is `cfg`: the function body reads only the module constants of
`app/auth.py` and never consults the settings object. -/
def create_access_token_in_process (cfg : Settings) (data : TokenPayload)
    (expires_delta : Option Nat) (now : Nat) : JoseToken :=
  let _ := cfg
  create_access_token data expires_delta now

/-- `decode_access_token` as run inside a process whose configuration
is `cfg`: the function body reads only the module constants of
`app/auth.py` and never consults the settings object. -/
def decode_access_token_in_process (cfg : Settings) (token : JoseToken)
    (now : Nat) : Option TokenData :=
  let _ := cfg
  decode_access_token token now

/-- `DashboardStats` of `app/api/dashboard.py` (scores and rates kept
as exact rationals). -/
structure DashboardStats where
  total_students : Int
  current_intake_students : Int
  total_instructors : Int
  total_courses : Int
  total_branches : Int
  total_tracks : Int
  total_exams : Int
  current_intake_exams : Int
  normal_exams : Int
  corrective_exams : Int
  total_submissions : Int
  overall_avg_score : Option ℚ
  total_passes : Int
  total_failures : Int
  overall_pass_rate : ℚ
  active_students : Int
  graduated_students : Int
  withdrawn_students : Int
  current_intake_year : Option Int
deriving DecidableEq, Repr

/-- The row returned by `EXEC sp_Manager_GetSystemDashboard`, holding
exactly the columns `get_dashboard_stats` reads (`cN` is `row[N]`;
columns 6, 11, 12 are never read and are omitted). -/
structure DashRow where
  c0 : Option Int
  c1 : Option Int
  c2 : Option Int
  c3 : Option Int
  c4 : Option Int
  c5 : Option Int
  c7 : Option Int
  c8 : Option Int
  c9 : Option Int
  c10 : Option Int
  c13 : Option Int
  c14 : Option ℚ
  c15 : Option Int
  c16 : Option Int
  c17 : Option ℚ
  c18 : Option Int
  c19 : Option Int
  c20 : Option Int
  c21 : Option Int
deriving DecidableEq, Repr

/-- Python's `x or 0` on an optional count (`None` and `0` are both
falsy and both yield `0`). -/
def pyOrZero (o : Option Int) : Int :=
  match o with
  | some n => n
  | none => 0

/-- Python's `round(q, 1)` on an exact rational. -/
def round1 (q : ℚ) : ℚ :=
  ((round (q * 10) : ℤ) : ℚ) / 10

/-- Python's `round(float(x), 1) if x else None`: `None` and an exact
zero are both falsy and yield `None`. -/
def pyRoundOpt (o : Option ℚ) : Option ℚ :=
  match o with
  | none => none
  | some q => if q = 0 then none else some (round1 q)

/-- Python's `round(float(x), 1) if x else 0.0`. -/
def pyRoundOrZero (o : Option ℚ) : ℚ :=
  match o with
  | none => 0
  | some q => if q = 0 then 0 else round1 q

/-- The dashboard's view of the data store: the stored-procedure call
(which may raise, `.error`, or return no row) and the scalars the
direct-query fallback reads.  Each aggregation query is abstracted as
the optional scalar it returns. -/
structure DashDb where
  sp_dashboard : Except String (Option DashRow)
  count_students : Option Int
  count_students_current_intake : Option Int
  count_students_active : Option Int
  count_students_graduated : Option Int
  count_students_withdrawn : Option Int
  count_instructors : Option Int
  count_courses : Option Int
  count_branches : Option Int
  count_tracks : Option Int
  count_exams : Option Int
  count_exams_current_intake : Option Int
  count_exams_normal : Option Int
  count_exams_corrective : Option Int
  count_submissions : Option Int
  avg_percentage : Option ℚ
  count_passes : Option Int
  count_failures : Option Int
  intake_year : Option Int

/-- `get_dashboard_stats_fallback` of `app/api/dashboard.py`: build
the stats from the direct aggregation queries, with `or 0` defaults,
`pass_rate = passes / submissions * 100` when there are submissions. -/
def get_dashboard_stats_fallback (db : DashDb) : DashboardStats :=
  let total_submissions := pyOrZero db.count_submissions
  let total_passes := pyOrZero db.count_passes
  let pass_rate : ℚ :=
    if total_submissions > 0 then
      (total_passes : ℚ) / (total_submissions : ℚ) * 100
    else 0
  { total_students := pyOrZero db.count_students,
    current_intake_students := pyOrZero db.count_students_current_intake,
    total_instructors := pyOrZero db.count_instructors,
    total_courses := pyOrZero db.count_courses,
    total_branches := pyOrZero db.count_branches,
    total_tracks := pyOrZero db.count_tracks,
    total_exams := pyOrZero db.count_exams,
    current_intake_exams := pyOrZero db.count_exams_current_intake,
    normal_exams := pyOrZero db.count_exams_normal,
    corrective_exams := pyOrZero db.count_exams_corrective,
    total_submissions := total_submissions,
    overall_avg_score := pyRoundOpt db.avg_percentage,
    total_passes := total_passes,
    total_failures := pyOrZero db.count_failures,
    overall_pass_rate := round1 pass_rate,
    active_students := pyOrZero db.count_students_active,
    graduated_students := pyOrZero db.count_students_graduated,
    withdrawn_students := pyOrZero db.count_students_withdrawn,
    current_intake_year := db.intake_year }

/-- The stats `get_dashboard_stats` builds from a stored-procedure
row. -/
def statsFromSpRow (r : DashRow) : DashboardStats :=
  { total_students := pyOrZero r.c0,
    current_intake_students := pyOrZero r.c1,
    total_instructors := pyOrZero r.c2,
    total_courses := pyOrZero r.c3,
    total_branches := pyOrZero r.c4,
    total_tracks := pyOrZero r.c5,
    total_exams := pyOrZero r.c7,
    current_intake_exams := pyOrZero r.c8,
    normal_exams := pyOrZero r.c9,
    corrective_exams := pyOrZero r.c10,
    total_submissions := pyOrZero r.c13,
    overall_avg_score := pyRoundOpt r.c14,
    total_passes := pyOrZero r.c15,
    total_failures := pyOrZero r.c16,
    overall_pass_rate := pyRoundOrZero r.c17,
    active_students := pyOrZero r.c18,
    graduated_students := pyOrZero r.c19,
    withdrawn_students := pyOrZero r.c20,
    current_intake_year := r.c21 }

/-- `get_dashboard_stats` of `app/api/dashboard.py`: run the stored
procedure inside `try/except`; the no-row case raises an
`HTTPException(500)` that the same broad `except` catches, so a raised
database error and a missing row alike fall back silently to
`get_dashboard_stats_fallback`. -/
def get_dashboard_stats (db : DashDb) : DashboardStats :=
  match db.sp_dashboard with
  | .error _ => get_dashboard_stats_fallback db
  | .ok none => get_dashboard_stats_fallback db
  | .ok (some row) => statsFromSpRow row

/-- Claim C7: hashing a password and verifying it round-trips to
`true` for the original password (any salt, including the empty
string and unicode input) and to `false` for any other password. -/
theorem hash_verify_roundtrip (p q : String) (salt : Nat) (hne : q ≠ p) :
    verify_password p (get_password_hash p salt) = true
    ∧ verify_password q (get_password_hash p salt) = false := by
  refine ⟨?_, ?_⟩ <;>
    simp [verify_password, bcrypt_checkpw, get_password_hash, bcrypt_hashpw, hne]

/-- Concrete instance of `hash_verify_roundtrip` at the empty-string
password and a distinct unicode password. -/
theorem hash_verify_roundtrip_wit :
    verify_password "" (get_password_hash "" 0) = true
    ∧ verify_password "päss" (get_password_hash "" 0) = false :=
  ⟨(hash_verify_roundtrip "" "päss" 0 (by decide)).1,
   (hash_verify_roundtrip "" "päss" 0 (by decide)).2⟩

/-- Claim C8: on a malformed (non-bcrypt) stored hash,
`bcrypt.checkpw` raises, and `verify_password` swallows the exception
and returns `false` for every plaintext — the same result as a wrong
password, so the caller cannot tell the two apart. -/
theorem malformed_hash_verify_false (p s : String) :
    bcrypt_checkpw p (.raw s) = .error "Invalid salt"
    ∧ verify_password p (.raw s) = false :=
  ⟨rfl, rfl⟩

/-- Claim C2 counterexample: with `ttl = 0`, time 0 is at-or-after
`issue_time + ttl`, yet the token issued at time 0 with a zero delta
(falsy in Python, so the 24-hour default expiry applies) still
decodes to the original claims at time 0 instead of the expired
rejection. -/
theorem token_roundtrip_expiry_zero_ttl_cex :
    0 + (0 : Nat) ≤ 0
    ∧ decode_access_token
        (create_access_token ⟨some (.jint 1), some "a@x.com", some "Student"⟩ (some 0) 0) 0
        = some ⟨some 1, some "a@x.com", some "Student"⟩ := by
  refine ⟨Nat.le_refl 0, by decide⟩

/-- Claim C2 (amended): for every claims payload and every nonzero
ttl, decoding the token strictly before `issue_time + ttl` returns
exactly the original subject, email and role, and at or after
`issue_time + ttl` the JWT layer rejects with `expired` and
`decode_access_token` returns `None`; a zero ttl is falsy in Python's
`if expires_delta:` test, so the token is issued with the 24-hour
default expiry instead. -/
theorem token_roundtrip_expiry (uid : Int) (em role : String) (ttl now t : Nat)
    (httl : ttl ≠ 0) :
    (t < now + ttl →
      decode_access_token
        (create_access_token ⟨some (.jint uid), some em, some role⟩ (some ttl) now) t
        = some ⟨some uid, some em, some role⟩)
    ∧ (now + ttl ≤ t →
      jose_decode
        (create_access_token ⟨some (.jint uid), some em, some role⟩ (some ttl) now)
        SECRET_KEY [ALGORITHM] t = .error .expired
      ∧ decode_access_token
        (create_access_token ⟨some (.jint uid), some em, some role⟩ (some ttl) now) t
        = none)
    ∧ create_access_token ⟨some (.jint uid), some em, some role⟩ (some 0) now
      = create_access_token ⟨some (.jint uid), some em, some role⟩ none now := by
  refine ⟨?_, ?_, ?_⟩
  · intro h
    have h2 : ¬ (now + ttl ≤ t) := by omega
    simp [create_access_token, jose_encode, decode_access_token, jose_decode, pyInt,
      h2, httl]
  · intro h
    refine ⟨?_, ?_⟩ <;>
      simp [create_access_token, jose_encode, decode_access_token, jose_decode, pyInt,
        h, httl]
  · rfl

/-- Concrete instance of `token_roundtrip_expiry`: a token with a
60-second ttl issued at time 0 decodes at time 10 and is rejected at
time 60. -/
theorem token_roundtrip_expiry_wit :
    decode_access_token
      (create_access_token ⟨some (.jint 1), some "a@x.com", some "Student"⟩ (some 60) 0) 10
      = some ⟨some 1, some "a@x.com", some "Student"⟩
    ∧ decode_access_token
      (create_access_token ⟨some (.jint 1), some "a@x.com", some "Student"⟩ (some 60) 0) 60
      = none :=
  ⟨(token_roundtrip_expiry 1 "a@x.com" "Student" 60 0 10 (by decide)).1 (by decide),
   ((token_roundtrip_expiry 1 "a@x.com" "Student" 60 0 60 (by decide)).2.1 (by decide)).2⟩

/-- Claim C3: a token signed with any secret other than the
verifier's `SECRET_KEY` is rejected by the JWT layer with
`bad-signature`, and `decode_access_token` returns `None`; it never
decodes successfully. -/
theorem forged_token_rejected (payload : TokenPayload) (exp : Nat) (key : String)
    (t : Nat) (hk : key ≠ SECRET_KEY) :
    jose_decode (jose_encode payload exp key ALGORITHM) SECRET_KEY [ALGORITHM] t
      = .error .badSignature
    ∧ decode_access_token (jose_encode payload exp key ALGORITHM) t = none := by
  refine ⟨?_, ?_⟩ <;> simp [jose_decode, jose_encode, decode_access_token, hk]

/-- Concrete instance of `forged_token_rejected` at an attacker
key. -/
theorem forged_token_rejected_wit :
    decode_access_token
      (jose_encode ⟨some (.jint 1), some "a@x.com", some "Student"⟩ 99999
        "other-secret" ALGORITHM) 0 = none :=
  (forged_token_rejected ⟨some (.jint 1), some "a@x.com", some "Student"⟩ 99999
    "other-secret" 0 (by decide)).2

/-- Claim C1: `authenticate_user` returns the stored identity exactly
when the store has a record for the email, the password verifies
against the stored hash, and the record is active; in every other
case `/login` raises the one generic 401 "Incorrect email or
password", identical across the not-found, bad-password and inactive
cases; on success `/login` returns the token and the user object. -/
theorem login_auth_characterization (db : Db) (em pw : String) (now : Nat) :
    (∀ u : UserInDB, authenticate_user em pw db = some u ↔
        (get_user_from_db em db = some u ∧ verify_password pw u.password_hash = true
          ∧ u.is_active = true))
    ∧ (authenticate_user em pw db = none →
        login ⟨em, pw⟩ db now = .error ⟨401, "Incorrect email or password"⟩)
    ∧ (∀ u : UserInDB, authenticate_user em pw db = some u →
        login ⟨em, pw⟩ db now = .ok
          { access_token := create_access_token
              ⟨some (.jint u.user_id), some u.email, some u.user_type⟩
              (some (ACCESS_TOKEN_EXPIRE_MINUTES * 60)) now,
            token_type := "bearer", user := userResponseOf u }) := by
  refine ⟨?_, ?_, ?_⟩
  · intro u
    unfold authenticate_user
    cases hg : get_user_from_db em db with
    | none => simp [hg]
    | some v =>
      by_cases hv : verify_password pw v.password_hash = true
      · by_cases ha : v.is_active = true
        · simp only [hv, ha, not_true, if_false, Option.some.injEq]
          constructor
          · rintro rfl
            exact ⟨rfl, hv, ha⟩
          · rintro ⟨h1, -, -⟩
            exact h1
        · simp only [hv, not_true, if_false, ha]
          constructor
          · intro h
            simp at h
          · rintro ⟨h1, -, ha2⟩
            injection h1 with h1
            exact absurd (h1 ▸ ha2) ha
      · simp only [hv]
        constructor
        · intro h
          simp at h
        · rintro ⟨h1, hv2, -⟩
          injection h1 with h1
          exact absurd (h1 ▸ hv2) hv
  · intro h
    simp [login, h]
  · intro u h
    simp [login, h]

/-- The stored row backing the `login_auth_characterization`
witness. -/
def c1Row : AuthRow :=
  { user_id := some 7, email := "a@x.com",
    password_hash := get_password_hash "p1" 3, user_type := "Student",
    student_id := some 1, instructor_id := none, is_active := true,
    full_name := some "Alice", intake_id := some 2, track_id := none,
    branch_id := none, track_name := none, branch_name := none,
    department_id := none, department_name := none }

/-- A store holding exactly `c1Row` under its email. -/
def c1Db : Db :=
  { authByEmail := fun e => if e = "a@x.com" then .ok (some c1Row) else .ok none,
    userById := fun _ => .ok none }

/-- The `UserInDB` that `get_user_from_db` builds from `c1Row`. -/
def c1User : UserInDB :=
  { user_id := 7, email := "a@x.com",
    password_hash := get_password_hash "p1" 3, user_type := "Student",
    full_name := "Alice", is_active := true,
    student_id := some 1, instructor_id := none, intake_id := some 2,
    track_id := none, branch_id := none, track_name := none,
    branch_name := none, department_id := none, department_name := none }

/-- Concrete instance of `login_auth_characterization`: the right
password logs in and returns the token plus user object; a wrong
password gets the generic 401. -/
theorem login_auth_characterization_wit :
    login ⟨"a@x.com", "p1"⟩ c1Db 0 = .ok
      { access_token := create_access_token
          ⟨some (.jint c1User.user_id), some c1User.email, some c1User.user_type⟩
          (some (ACCESS_TOKEN_EXPIRE_MINUTES * 60)) 0,
        token_type := "bearer", user := userResponseOf c1User }
    ∧ login ⟨"a@x.com", "wrong"⟩ c1Db 0
      = .error ⟨401, "Incorrect email or password"⟩ :=
  ⟨(login_auth_characterization c1Db "a@x.com" "p1" 0).2.2 c1User (by decide),
   (login_auth_characterization c1Db "a@x.com" "wrong" 0).2.1 (by decide)⟩

/-- Claim C4: a freshly fetched record with `is_active = false` makes
`get_current_user` reject with the 401 `credentials_exception` even
for a validly signed, unexpired token, and makes `authenticate_user`
reject even when the exact correct password is supplied. -/
theorem inactive_identity_rejected (db : Db) (token : JoseToken) (now : Nat)
    (td : TokenData) (uid : Int) (row : UserRow)
    (em pw : String) (arow : AuthRow) :
    (decode_access_token token now = some td → td.user_id = some uid →
      db.userById uid = .ok (some row) → row.is_active = false →
      get_current_user token db now = .error credentials_exception)
    ∧ (db.authByEmail em = .ok (some arow) →
      verify_password pw arow.password_hash = true → arow.is_active = false →
      authenticate_user em pw db = none) := by
  constructor
  · intro h1 h2 h3 h4
    cases hr : row.user_id with
    | none => simp [get_current_user, h1, h2, h3, hr]
    | some ruid => simp [get_current_user, h1, h2, h3, h4, hr]
  · intro h1 h2 h3
    cases hu : arow.user_id with
    | none => simp [authenticate_user, get_user_from_db, h1, hu]
    | some uid2 => simp [authenticate_user, get_user_from_db, h1, hu, h2, h3]

/-- The deactivated record behind the `inactive_identity_rejected`
witness, as fetched by id. -/
def c4Row : UserRow :=
  { user_id := some 5, email := "b@x.com", user_type := "Student",
    student_id := some 2, instructor_id := none, is_active := false,
    full_name := some "Bob", intake_id := none, track_id := none,
    branch_id := none, track_name := none, branch_name := none,
    department_id := none, department_name := none }

/-- The same deactivated record as fetched by email, with the correct
password "p2" hashed. -/
def c4ARow : AuthRow :=
  { user_id := some 5, email := "b@x.com",
    password_hash := get_password_hash "p2" 4, user_type := "Student",
    student_id := some 2, instructor_id := none, is_active := false,
    full_name := some "Bob", intake_id := none, track_id := none,
    branch_id := none, track_name := none, branch_name := none,
    department_id := none, department_name := none }

/-- A store holding only the deactivated record. -/
def c4Db : Db :=
  { authByEmail := fun _ => .ok (some c4ARow),
    userById := fun _ => .ok (some c4Row) }

/-- Concrete instance of `inactive_identity_rejected`: a valid,
unexpired token for the deactivated user is rejected with 401, and
login with the exact correct password is rejected. -/
theorem inactive_identity_rejected_wit :
    get_current_user
      (create_access_token ⟨some (.jint 5), some "b@x.com", some "Student"⟩ (some 3600) 0)
      c4Db 0 = .error credentials_exception
    ∧ authenticate_user "b@x.com" "p2" c4Db = none :=
  ⟨(inactive_identity_rejected c4Db
      (create_access_token ⟨some (.jint 5), some "b@x.com", some "Student"⟩ (some 3600) 0)
      0 ⟨some 5, some "b@x.com", some "Student"⟩ 5 c4Row "b@x.com" "p2" c4ARow).1
      (by decide) (by decide) rfl (by decide),
   (inactive_identity_rejected c4Db
      (create_access_token ⟨some (.jint 5), some "b@x.com", some "Student"⟩ (some 3600) 0)
      0 ⟨some 5, some "b@x.com", some "Student"⟩ 5 c4Row "b@x.com" "p2" c4ARow).2
      rfl (by decide) (by decide)⟩

/-- A Credential Store that is unreachable: every lookup raises. -/
def c5Db : Db :=
  { authByEmail := fun _ => .error "connection refused",
    userById := fun _ => .error "connection refused" }

/-- Claim C5 counterexample: with the store unreachable, `/login`
answers exactly the BadCredentials 401 "Incorrect email or password"
and `get_current_user` (given a validly signed, unexpired token)
answers exactly the 401 "Could not validate credentials" — the store
failure is conflated with the credential rejections, not surfaced as
a generic server error. -/
theorem store_down_conflated_cex :
    login ⟨"a@x.com", "p1"⟩ c5Db 0 = .error ⟨401, "Incorrect email or password"⟩
    ∧ get_current_user
        (create_access_token ⟨some (.jint 7), some "a@x.com", some "Student"⟩ (some 3600) 0)
        c5Db 0 = .error ⟨401, "Could not validate credentials"⟩ :=
  ⟨rfl, rfl⟩

/-- Claim C5 amended: when the Credential Store raises, the broad
`except` handlers swallow the failure — `get_user_from_db` returns
`None`, so `/login` answers the same 401 "Incorrect email or
password" as bad credentials, and `get_current_user` answers its 401
`credentials_exception`; no generic server error is produced. -/
theorem store_down_maps_to_credential_401 (db : Db) (em pw e : String) (now : Nat)
    (token : JoseToken) (td : TokenData) (uid : Int) :
    (db.authByEmail em = .error e →
      login ⟨em, pw⟩ db now = .error ⟨401, "Incorrect email or password"⟩)
    ∧ (decode_access_token token now = some td → td.user_id = some uid →
      db.userById uid = .error e →
      get_current_user token db now = .error credentials_exception) := by
  constructor
  · intro h
    simp [login, authenticate_user, get_user_from_db, h]
  · intro h1 h2 h3
    simp [get_current_user, h1, h2, h3]

/-- Concrete instance of `store_down_maps_to_credential_401` on the
unreachable store. -/
theorem store_down_maps_to_credential_401_wit :
    login ⟨"z@x.com", "q"⟩ c5Db 1 = .error ⟨401, "Incorrect email or password"⟩
    ∧ get_current_user (create_access_token ⟨some (.jint 3), none, none⟩ (some 10) 0)
        c5Db 1 = .error credentials_exception :=
  ⟨(store_down_maps_to_credential_401 c5Db "z@x.com" "q" "connection refused" 1
      (create_access_token ⟨some (.jint 3), none, none⟩ (some 10) 0)
      ⟨some 3, none, none⟩ 3).1 rfl,
   (store_down_maps_to_credential_401 c5Db "z@x.com" "q" "connection refused" 1
      (create_access_token ⟨some (.jint 3), none, none⟩ (some 10) 0)
      ⟨some 3, none, none⟩ 3).2 (by decide) (by decide) rfl⟩

/-- Claim C6: every identity the Session Extractor resolves from a
token has its password hash cleared to the empty string, and the
outward `UserResponse` used by `/me` and `/login` has no
password-hash field at all. -/
theorem resolved_user_hash_cleared (token : JoseToken) (db : Db) (now : Nat)
    (u : UserInDB) :
    (get_current_user token db now = .ok u → u.password_hash = emptyHash)
    ∧ "password_hash" ∉ UserResponse.fieldNames := by
  constructor
  · intro h
    cases hd : decode_access_token token now with
    | none => simp [get_current_user, hd] at h
    | some td =>
      cases ht : td.user_id with
      | none => simp [get_current_user, hd, ht] at h
      | some uid =>
        cases hq : db.userById uid with
        | error e => simp [get_current_user, hd, ht, hq] at h
        | ok orow =>
          cases orow with
          | none => simp [get_current_user, hd, ht, hq] at h
          | some row =>
            cases hru : row.user_id with
            | none => simp [get_current_user, hd, ht, hq, hru] at h
            | some ruid =>
              cases ha : row.is_active with
              | false => simp [get_current_user, hd, ht, hq, hru, ha] at h
              | true =>
                simp [get_current_user, hd, ht, hq, hru, ha] at h
                subst h
                rfl
  · decide

/-- The active record behind the `resolved_user_hash_cleared`
witness. -/
def c6Row : UserRow :=
  { user_id := some 9, email := "c@x.com", user_type := "Manager",
    student_id := none, instructor_id := none, is_active := true,
    full_name := some "Carol", intake_id := none, track_id := none,
    branch_id := none, track_name := none, branch_name := none,
    department_id := none, department_name := none }

/-- A store resolving every id to the active record. -/
def c6Db : Db :=
  { authByEmail := fun _ => .ok none,
    userById := fun _ => .ok (some c6Row) }

/-- The identity `get_current_user` resolves from `c6Row`. -/
def c6User : UserInDB :=
  { user_id := 9, email := "c@x.com", password_hash := .raw "",
    user_type := "Manager", full_name := "Carol", is_active := true,
    student_id := none, instructor_id := none, intake_id := none,
    track_id := none, branch_id := none, track_name := none,
    branch_name := none, department_id := none, department_name := none }

/-- Concrete instance of `resolved_user_hash_cleared`: the identity
resolved from a valid token has an empty password hash. -/
theorem resolved_user_hash_cleared_wit :
    c6User.password_hash = emptyHash
    ∧ "password_hash" ∉ UserResponse.fieldNames :=
  ⟨(resolved_user_hash_cleared
      (create_access_token ⟨some (.jint 9), some "c@x.com", some "Manager"⟩ (some 100) 0)
      c6Db 0 c6User).1 rfl,
   (resolved_user_hash_cleared
      (create_access_token ⟨some (.jint 9), some "c@x.com", some "Manager"⟩ (some 100) 0)
      c6Db 0 c6User).2⟩

/-- Claim C9: for any two process configurations agreeing on every
non-JWT field (so differing at most in `jwt_secret`, `jwt_algorithm`,
`jwt_expires_minutes`), `create_access_token` and
`decode_access_token` produce identical results on every input — they
read only the hardcoded module constants of `app/auth.py`, whose
values are also pinned here. -/
theorem jwt_functions_ignore_settings (s1 s2 : Settings) (data : TokenPayload)
    (expires_delta : Option Nat) (now : Nat) (token : JoseToken) (t : Nat)
    (_hsame : s1.db_server = s2.db_server ∧ s1.db_port = s2.db_port
      ∧ s1.db_name = s2.db_name ∧ s1.db_user = s2.db_user
      ∧ s1.db_password = s2.db_password ∧ s1.db_encrypt = s2.db_encrypt
      ∧ s1.db_trust_server_certificate = s2.db_trust_server_certificate
      ∧ s1.app_name = s2.app_name ∧ s1.debug = s2.debug
      ∧ s1.api_prefix = s2.api_prefix ∧ s1.cors_origins = s2.cors_origins
      ∧ s1.host = s2.host ∧ s1.port = s2.port) :
    create_access_token_in_process s1 data expires_delta now
      = create_access_token_in_process s2 data expires_delta now
    ∧ decode_access_token_in_process s1 token t
      = decode_access_token_in_process s2 token t
    ∧ SECRET_KEY = "your-secret-key-change-this-in-production"
    ∧ ALGORITHM = "HS256"
    ∧ ACCESS_TOKEN_EXPIRE_MINUTES = 1440 :=
  ⟨rfl, rfl, rfl, rfl, by decide⟩

/-- A configuration differing from the default only in the three JWT
fields: rotated secret, different algorithm, different TTL. -/
def rotatedJwtSettings : Settings :=
  { defaultSettings with jwt_secret := "rotated", jwt_algorithm := "HS512", jwt_expires_minutes := 5 }

/-- Concrete instance of `jwt_functions_ignore_settings`: the default
configuration versus one with a rotated secret, a different algorithm
and a different TTL. -/
theorem jwt_functions_ignore_settings_wit :
    create_access_token_in_process defaultSettings ⟨some (.jint 1), none, none⟩ none 0
      = create_access_token_in_process rotatedJwtSettings
          ⟨some (.jint 1), none, none⟩ none 0
    ∧ decode_access_token_in_process defaultSettings (.garbage "x") 0
      = decode_access_token_in_process rotatedJwtSettings (.garbage "x") 0 :=
  ⟨(jwt_functions_ignore_settings defaultSettings rotatedJwtSettings
      ⟨some (.jint 1), none, none⟩ none 0 (.garbage "x") 0
      ⟨rfl, rfl, rfl, rfl, rfl, rfl, rfl, rfl, rfl, rfl, rfl, rfl, rfl⟩).1,
   (jwt_functions_ignore_settings defaultSettings rotatedJwtSettings
      ⟨some (.jint 1), none, none⟩ none 0 (.garbage "x") 0
      ⟨rfl, rfl, rfl, rfl, rfl, rfl, rfl, rfl, rfl, rfl, rfl, rfl, rfl⟩).2.1⟩

/-- Claim C10: any failure on the stored-procedure path of the
dashboard stats endpoint — the procedure call raising, or returning
no row (whose 500 is caught by the same broad `except`) — makes the
endpoint silently return the direct-query fallback's result instead
of propagating an error. -/
theorem dashboard_sp_failure_falls_back (db : DashDb) (e : String) :
    (db.sp_dashboard = .error e →
      get_dashboard_stats db = get_dashboard_stats_fallback db)
    ∧ (db.sp_dashboard = .ok none →
      get_dashboard_stats db = get_dashboard_stats_fallback db) := by
  constructor <;> intro h <;> simp [get_dashboard_stats, h]

/-- A dashboard store whose stored procedure raises (e.g. the
procedure does not exist). -/
def c10Db : DashDb :=
  { sp_dashboard := .error "could not find stored procedure",
    count_students := some 10, count_students_current_intake := some 4,
    count_students_active := some 8, count_students_graduated := some 1,
    count_students_withdrawn := some 1, count_instructors := some 3,
    count_courses := some 6, count_branches := some 2, count_tracks := some 2,
    count_exams := some 5, count_exams_current_intake := some 2,
    count_exams_normal := some 4, count_exams_corrective := some 1,
    count_submissions := some 20, avg_percentage := some 71, count_passes := some 15,
    count_failures := some 5, intake_year := some 2024 }

/-- Concrete instance of `dashboard_sp_failure_falls_back` on a store
whose procedure raises. -/
theorem dashboard_sp_failure_falls_back_wit :
    get_dashboard_stats c10Db = get_dashboard_stats_fallback c10Db :=
  (dashboard_sp_failure_falls_back c10Db "could not find stored procedure").1 rfl
